import Mathlib

/-!
Verification of the droplet-splash scene (Bevy/Rapier demo, `src/main.rs`).

The development shallowly embeds the repository's own code:
* the procedural checkerboard texture generator (`create_checkerboard_image`),
* the per-frame systems `animate_light`, `animate_droplet`, `reset_droplet`
  and `splash_on_impact`,
* the scene bootstrap `setup` (only the parts the claims need: which
  components each spawned entity carries).

Engine-side machinery (ECS storage, scheduling, physics solving) is out of
scope; what is embedded is the observable effect of each system on the
queried entity sets, including Bevy's deferred-command semantics: component
insertions, spawns and despawns issued through `Commands` apply only after
the system's run, while `Mut<Transform>` writes apply immediately.
-/

/-! ## Checkerboard texture generator (`create_checkerboard_image`) -/

def TEXTURE_SIZE : Nat := 512

/-- One byte-store into the palette buffer, modelled as a pointwise update of
an index-to-byte map (the Rust code writes `palette[i] = v` into a flat
`[u8; 512*512*4]` array). -/
def updByte (pal : Nat → Nat) (i v : Nat) : Nat → Nat :=
  fun j => if j = i then v else pal j

/-- The body of the inner loop of `create_checkerboard_image`: writes the four
RGBA bytes of pixel `(x, y)`. -/
def writePixel (pal : Nat → Nat) (x y : Nat) : Nat → Nat :=
  let i := (y * TEXTURE_SIZE + x) * 4
  let is_white := ((x / 64) + (y / 64)) % 2 = 0
  let color : Nat := if is_white then 255 else 150
  updByte (updByte (updByte (updByte pal i color) (i + 1) color) (i + 2) color) (i + 3) 255

/-- The inner `for x in 0..TEXTURE_SIZE` loop over one row `y`. -/
def writeRow (pal : Nat → Nat) (y : Nat) : Nat → Nat :=
  (List.range TEXTURE_SIZE).foldl (fun p x => writePixel p x y) pal

/-- The full double loop of `create_checkerboard_image`, starting from the
zero-initialised buffer `[0; TEXTURE_SIZE * TEXTURE_SIZE * 4]`. -/
def checkerboard_palette : Nat → Nat :=
  (List.range TEXTURE_SIZE).foldl (fun p y => writeRow p y) (fun _ => 0)

/-- The produced image: a 512×512 RGBA texture whose data is the palette
buffer (`Image::new` with `Extent3d { width: 512, height: 512, .. }`). -/
structure CheckerImage where
  width : Nat
  height : Nat
  data : Nat → Nat

def create_checkerboard_image : CheckerImage :=
  { width := TEXTURE_SIZE, height := TEXTURE_SIZE, data := checkerboard_palette }

/-- The byte the generator is supposed to place at flat index `j`. -/
def expectedByte (j : Nat) : Nat :=
  let p := j / 4
  let x := p % TEXTURE_SIZE
  let y := p / TEXTURE_SIZE
  if j % 4 = 3 then 255
  else if ((x / 64) + (y / 64)) % 2 = 0 then 255 else 150

/-! ## Scene data model

Coordinates are modelled over a generic linear ordered field `α` (the code
uses `f32`); the theorems about the RNG-free, trig-free systems instantiate
`α := ℚ` to stay executable, while the wobble/light systems (which call
`sin`/`cos`) are stated over `α := ℝ`. -/

structure Vec3 (α : Type) where
  x : α
  y : α
  z : α
deriving DecidableEq

def Vec3.ZERO {α : Type} [Zero α] : Vec3 α := ⟨0, 0, 0⟩

def Vec3.ONE {α : Type} [One α] : Vec3 α := ⟨1, 1, 1⟩

/-- Quaternion (`Quat`), carried only so that theorems can say a system left
the rotation untouched. -/
structure Quatn (α : Type) where
  qx : α
  qy : α
  qz : α
  qw : α
deriving DecidableEq

/-- Bevy `Transform`: translation, rotation, scale. -/
structure Transform (α : Type) where
  translation : Vec3 α
  rotation : Quatn α
  scale : Vec3 α
deriving DecidableEq

def Quatn.IDENTITY {α : Type} [Zero α] [One α] : Quatn α := ⟨0, 0, 0, 1⟩

/-- The droplet entity as the systems query it: its entity id, `Transform`,
`Visibility`, Rapier `Velocity` (`linvel`/`angvel`), and whether the
`HasSplashed` marker component is attached. -/
structure DropletEntity (α : Type) where
  id : Nat
  transform : Transform α
  visible : Bool
  linvel : Vec3 α
  angvel : Vec3 α
  hasSplashed : Bool
deriving DecidableEq

/-- A splash-particle entity as spawned by `splash_on_impact`: transform
translation, `RigidBody::Dynamic` flag, `Collider::ball` radius, and Rapier
`Velocity`. -/
structure Particle (α : Type) where
  translation : Vec3 α
  rigidBodyDynamic : Bool
  colliderBallRadius : α
  linvel : Vec3 α
  angvel : Vec3 α
deriving DecidableEq

/-- The mutable scene state the three droplet systems read and write. -/
structure World (α : Type) where
  droplets : List (DropletEntity α)
  particles : List (Particle α)
deriving DecidableEq

/-- Rapier `CollisionEvent`: `Started(e1, e2, flags)` or `Stopped(e1, e2, flags)`,
with entities as ids. -/
inductive CollisionEvent where
  | Started (e1 e2 flags : Nat)
  | Stopped (e1 e2 flags : Nat)
deriving DecidableEq

/-! ## Systems -/

/-- The rotating-light system `animate_light`: for every entity tagged
`RotateLight`, set its translation to
`(4 * cos t, 8, 4 * sin t)` where `t` is the elapsed time. -/
structure SceneEntity where
  rotateLight : Bool
  transform : Transform ℝ

noncomputable def animate_light (t : ℝ) (entities : List SceneEntity) : List SceneEntity :=
  entities.map fun e =>
    if e.rotateLight then
      { e with transform :=
        { e.transform with translation :=
          ⟨4.0 * Real.cos t, 8.0, 4.0 * Real.sin t⟩ } }
    else e

/-- The wobble system `animate_droplet`: for every droplet, if
`transform.scale.y > 0.5`, set the scale to the three-frequency wobble;
otherwise leave the droplet alone. -/
noncomputable def animate_droplet (t : ℝ) (w : World ℝ) : World ℝ :=
  { w with droplets := w.droplets.map fun d =>
      let wobble_x := Real.sin (t * 5.0) * 0.02
      let wobble_y := Real.cos (t * 4.3) * 0.02
      let wobble_z := Real.sin (t * 3.5) * 0.02
      if 0.5 < d.transform.scale.y then
        { d with transform :=
          { d.transform with scale := ⟨1.0 + wobble_x, 1.0 + wobble_y, 1.0 + wobble_z⟩ } }
      else d }

/-- Model of `rand::Rng::gen_range(lo..hi)`: an abstract stream
`rand : Nat → α` of unit-interval samples is threaded through the system, and
the `n`-th call returns `lo + rand n * (hi - lo)`. -/
def gen_range {α : Type} [LinearOrderedField α] (lo hi u : α) : α :=
  lo + u * (hi - lo)

/-- The 20-iteration particle-spawning loop of `splash_on_impact`, started at
RNG cursor `k`. Per iteration the code draws `x_vel`, then `z_vel`, then
`y_vel`, and spawns a dynamic-body particle with a radius-0.1 ball collider at
the droplet's current translation. -/
def spawnParticles {α : Type} [LinearOrderedField α] (rand : Nat → α) (k : Nat)
    (pos : Vec3 α) : List (Particle α) :=
  (List.range 20).map fun j =>
    let x_vel := gen_range (-2.0) 2.0 (rand (k + 3 * j))
    let z_vel := gen_range (-2.0) 2.0 (rand (k + 3 * j + 1))
    let y_vel := gen_range 2.0 5.0 (rand (k + 3 * j + 2))
    { translation := pos
      rigidBodyDynamic := true
      colliderBallRadius := 0.1
      linvel := ⟨x_vel, y_vel, z_vel⟩
      angvel := Vec3.ZERO }

/-- `Query::get_single_mut`: succeeds exactly when the filtered set has
exactly one element. -/
def get_single? {β : Type} (l : List β) : Option β :=
  match l with
  | [b] => some b
  | _ => none

/-- Write `scale := s` on the droplet with id `i` (a `Mut<Transform>` write:
applied immediately, visible to later events in the same run). -/
def setScale {α : Type} (ds : List (DropletEntity α)) (i : Nat) (s : Vec3 α) :
    List (DropletEntity α) :=
  ds.map fun d =>
    if d.id = i then { d with transform := { d.transform with scale := s } } else d

/-- Accumulator for one run of `splash_on_impact`: the live droplet list
(transform writes land immediately) plus the deferred command queue
(`insert(HasSplashed)` targets and particle spawns) and the RNG cursor. -/
structure SplashAcc (α : Type) where
  droplets : List (DropletEntity α)
  pendingMarkers : List Nat
  pendingSpawns : List (Particle α)
  rngIdx : Nat

/-- Processing of a single collision event by `splash_on_impact`'s loop body.
The `Without<HasSplashed>` filter sees only the component state at system
start, because the marker is inserted through `Commands` (deferred). -/
def splashStep {α : Type} [LinearOrderedField α] (rand : Nat → α)
    (acc : SplashAcc α) (event : CollisionEvent) : SplashAcc α :=
  match event with
  | CollisionEvent.Started e1 e2 _ =>
    match get_single? (acc.droplets.filter fun d => !d.hasSplashed) with
    | some d =>
      if e1 = d.id ∨ e2 = d.id then
        if d.transform.translation.y < 1.0 then
          { droplets := setScale acc.droplets d.id ⟨2.0, 0.1, 2.0⟩
            pendingMarkers := acc.pendingMarkers ++ [d.id]
            pendingSpawns :=
              acc.pendingSpawns ++ spawnParticles rand acc.rngIdx d.transform.translation
            rngIdx := acc.rngIdx + 60 }
        else acc
      else acc
    | none => acc
  | CollisionEvent.Stopped _ _ _ => acc

/-- Apply the deferred `insert(HasSplashed)` commands. -/
def applyMarkers {α : Type} (ds : List (DropletEntity α)) (ids : List Nat) :
    List (DropletEntity α) :=
  ds.map fun d => if ids.contains d.id then { d with hasSplashed := true } else d

/-- The splash system `splash_on_impact`: fold the loop body over the frame's
collision events, then flush the command queue (marker inserts and particle
spawns). -/
def splash_on_impact {α : Type} [LinearOrderedField α]
    (events : List CollisionEvent) (rand : Nat → α) (w : World α) : World α :=
  let acc := events.foldl (splashStep rand) ⟨w.droplets, [], [], 0⟩
  { droplets := applyMarkers acc.droplets acc.pendingMarkers
    particles := w.particles ++ acc.pendingSpawns }

/-- The reset system `reset_droplet`. `just_pressed_r` is the engine-supplied
edge-triggered `ButtonInput::just_pressed(KeyCode::KeyR)` for this frame: true
only on the frame the key goes down, not while held. On a press every droplet
is restored (translation `(0,5,0)`, unit scale, zero velocity, marker removed
through `Commands`) and every `SplashParticle` entity is despawned. -/
def reset_droplet {α : Type} [LinearOrderedField α] (just_pressed_r : Bool)
    (w : World α) : World α :=
  if just_pressed_r then
    { droplets := w.droplets.map fun d =>
        { d with
          transform := { d.transform with translation := ⟨0.0, 5.0, 0.0⟩, scale := Vec3.ONE }
          linvel := Vec3.ZERO
          angvel := Vec3.ZERO
          hasSplashed := false }
      particles := [] }
  else w

/-! ## Scene bootstrap (`setup`)

`setup` spawns six entities: the pan-orbit camera, the directional light,
the plain gray floor, the sky dome, the checkerboard floor (fixed rigid
body with a cuboid collider) and the droplet. None of them carries the
`RotateLight` component. -/

/-- Hamilton product of two quaternions (used by `Quat::from_euler`). -/
def Quatn.hmul {α : Type} [Ring α] (p q : Quatn α) : Quatn α :=
  ⟨p.qw * q.qx + p.qx * q.qw + p.qy * q.qz - p.qz * q.qy,
   p.qw * q.qy - p.qx * q.qz + p.qy * q.qw + p.qz * q.qx,
   p.qw * q.qz + p.qx * q.qy - p.qy * q.qx + p.qz * q.qw,
   p.qw * q.qw - p.qx * q.qx - p.qy * q.qy - p.qz * q.qz⟩

noncomputable def Quatn.fromAxisAngleX (a : ℝ) : Quatn ℝ :=
  ⟨Real.sin (a / 2), 0, 0, Real.cos (a / 2)⟩

noncomputable def Quatn.fromAxisAngleY (a : ℝ) : Quatn ℝ :=
  ⟨0, Real.sin (a / 2), 0, Real.cos (a / 2)⟩

noncomputable def Quatn.fromAxisAngleZ (a : ℝ) : Quatn ℝ :=
  ⟨0, 0, Real.sin (a / 2), Real.cos (a / 2)⟩

/-- `Quat::from_euler(EulerRot::XYZ, a, b, c)`. -/
noncomputable def Quatn.fromEulerXYZ (a b c : ℝ) : Quatn ℝ :=
  Quatn.hmul (Quatn.fromAxisAngleX a)
    (Quatn.hmul (Quatn.fromAxisAngleY b) (Quatn.fromAxisAngleZ c))

/-- The entities spawned by `setup`, with their initial transforms, in spawn
order: camera, directional light, gray floor, sky dome, checkerboard floor,
droplet. `setup` attaches `RotateLight` to none of them. -/
noncomputable def setup_entities : List SceneEntity :=
  [ { rotateLight := false
      transform := { translation := ⟨0.0, 1.5, 5.0⟩, rotation := Quatn.IDENTITY
                     scale := Vec3.ONE } },
    { rotateLight := false
      transform := { translation := Vec3.ZERO
                     rotation := Quatn.fromEulerXYZ (-1.0) (-0.5) 0.0
                     scale := Vec3.ONE } },
    { rotateLight := false
      transform := { translation := Vec3.ZERO, rotation := Quatn.IDENTITY
                     scale := Vec3.ONE } },
    { rotateLight := false
      transform := { translation := Vec3.ZERO, rotation := Quatn.IDENTITY
                     scale := Vec3.ONE } },
    { rotateLight := false
      transform := { translation := Vec3.ZERO, rotation := Quatn.IDENTITY
                     scale := Vec3.ONE } },
    { rotateLight := false
      transform := { translation := ⟨0.0, 5.0, 0.0⟩, rotation := Quatn.IDENTITY
                     scale := Vec3.ONE } } ]

/-! ## Concrete fixtures used by witnesses and counterexamples -/

/-- An unsplashed droplet resting below `y = 1` (entity id 0). -/
def cexDroplet : DropletEntity ℚ :=
  { id := 0
    transform := { translation := ⟨0, 0, 0⟩, rotation := Quatn.IDENTITY, scale := Vec3.ONE }
    visible := true
    linvel := Vec3.ZERO
    angvel := Vec3.ZERO
    hasSplashed := false }

/-- A second droplet, id 1, otherwise identical. -/
def cexDroplet2 : DropletEntity ℚ := { cexDroplet with id := 1 }

def cexWorld : World ℚ := { droplets := [cexDroplet], particles := [] }

def twoDropletWorld : World ℚ := { droplets := [cexDroplet, cexDroplet2], particles := [] }

/-- The droplet after its marker has been attached. -/
def splashedDroplet : DropletEntity ℚ := { cexDroplet with hasSplashed := true }

def splashedWorld : World ℚ := { droplets := [splashedDroplet], particles := [] }

/-- A lone splash particle. -/
def cexParticle : Particle ℚ :=
  { translation := Vec3.ZERO
    rigidBodyDynamic := true
    colliderBallRadius := 0.1
    linvel := Vec3.ZERO
    angvel := Vec3.ZERO }

/-- A world with no droplet but one leftover particle. -/
def noDropletWorld : World ℚ := { droplets := [], particles := [cexParticle] }

/-- A constant RNG stream. -/
def randZero : Nat → ℚ := fun _ => 0

/-- The droplet as spawned by `setup`, over `ℝ` (for the wobble system). -/
def dropletR : DropletEntity ℝ :=
  { id := 0
    transform := { translation := ⟨0, 5, 0⟩, rotation := Quatn.IDENTITY, scale := Vec3.ONE }
    visible := true
    linvel := Vec3.ZERO
    angvel := Vec3.ZERO
    hasSplashed := false }

def worldR : World ℝ := { droplets := [dropletR], particles := [] }

/-- The droplet after the splash flattened it to `(2, 0.1, 2)`. -/
noncomputable def flatDropletR : DropletEntity ℝ :=
  { dropletR with transform := { dropletR.transform with scale := ⟨2.0, 0.1, 2.0⟩ } }

noncomputable def flatWorldR : World ℝ := { droplets := [flatDropletR], particles := [] }

def emptyWorldR : World ℝ := { droplets := [], particles := [] }

/-! ## Theorems -/

theorem updByte_at (pal : Nat → Nat) (i v : Nat) : updByte pal i v i = v := by
  simp [updByte]

theorem updByte_ne (pal : Nat → Nat) (i v j : Nat) (h : j ≠ i) :
    updByte pal i v j = pal j := by
  simp [updByte, h]

theorem writePixel_untouched (pal : Nat → Nat) (x y j : Nat)
    (h : j < (y * 512 + x) * 4 ∨ (y * 512 + x) * 4 + 4 ≤ j) :
    writePixel pal x y j = pal j := by
  have h0 : j ≠ (y * 512 + x) * 4 := by omega
  have h1 : j ≠ (y * 512 + x) * 4 + 1 := by omega
  have h2 : j ≠ (y * 512 + x) * 4 + 2 := by omega
  have h3 : j ≠ (y * 512 + x) * 4 + 3 := by omega
  simp only [writePixel, TEXTURE_SIZE]
  rw [updByte_ne _ _ _ _ h3, updByte_ne _ _ _ _ h2, updByte_ne _ _ _ _ h1,
    updByte_ne _ _ _ _ h0]

theorem writePixel_touched (pal : Nat → Nat) (x y j : Nat)
    (hlo : (y * 512 + x) * 4 ≤ j) (hhi : j < (y * 512 + x) * 4 + 4) :
    writePixel pal x y j =
      if j % 4 = 3 then 255
      else if ((x / 64) + (y / 64)) % 2 = 0 then 255 else 150 := by
  set i := (y * 512 + x) * 4 with hi
  simp only [writePixel, TEXTURE_SIZE, ← hi]
  have hcases : j = i ∨ j = i + 1 ∨ j = i + 2 ∨ j = i + 3 := by omega
  rcases hcases with h | h | h | h <;> subst h
  · rw [updByte_ne _ _ _ _ (by omega), updByte_ne _ _ _ _ (by omega),
      updByte_ne _ _ _ _ (by omega), updByte_at]
    simp only [if_neg (by omega : ¬ i % 4 = 3)]
  · rw [updByte_ne _ _ _ _ (by omega), updByte_ne _ _ _ _ (by omega), updByte_at]
    simp only [if_neg (by omega : ¬ (i + 1) % 4 = 3)]
  · rw [updByte_ne _ _ _ _ (by omega), updByte_at]
    simp only [if_neg (by omega : ¬ (i + 2) % 4 = 3)]
  · rw [updByte_at]
    simp only [if_pos (by omega : (i + 3) % 4 = 3)]

theorem expectedByte_in_pixel (x y k : Nat) (hx : x < 512) (hk : k < 4) :
    expectedByte ((y * 512 + x) * 4 + k) =
      if k = 3 then 255
      else if ((x / 64) + (y / 64)) % 2 = 0 then 255 else 150 := by
  have hdiv : ((y * 512 + x) * 4 + k) / 4 = y * 512 + x := by omega
  have hmod : ((y * 512 + x) * 4 + k) % 4 = k := by omega
  have hxmod : (y * 512 + x) % 512 = x := by omega
  have hydiv : (y * 512 + x) / 512 = y := by omega
  simp only [expectedByte, TEXTURE_SIZE, hdiv, hmod, hxmod, hydiv]

theorem rowFold_eq (y : Nat) (pal : Nat → Nat) (n : Nat) (hn : n ≤ 512) (j : Nat) :
    ((List.range n).foldl (fun p x => writePixel p x y) pal) j =
      if y * 2048 ≤ j ∧ j < (y * 512 + n) * 4 then expectedByte j
      else pal j := by
  induction n generalizing j with
  | zero =>
    simp only [List.range_zero, List.foldl_nil]
    rw [if_neg (by omega)]
  | succ n ih =>
    have hn' : n ≤ 512 := Nat.le_of_succ_le hn
    rw [List.range_succ, List.foldl_append, List.foldl_cons, List.foldl_nil]
    by_cases htouch : (y * 512 + n) * 4 ≤ j ∧ j < (y * 512 + n) * 4 + 4
    · obtain ⟨h1, h2⟩ := htouch
      rw [writePixel_touched _ _ _ _ h1 h2]
      rw [if_pos (by omega : y * 2048 ≤ j ∧ j < (y * 512 + (n + 1)) * 4)]
      obtain ⟨k, hk, rfl⟩ : ∃ k, k < 4 ∧ j = (y * 512 + n) * 4 + k :=
        ⟨j - (y * 512 + n) * 4, by omega, by omega⟩
      rw [expectedByte_in_pixel _ _ _ (by omega) hk]
      rw [(by omega : ((y * 512 + n) * 4 + k) % 4 = k)]
    · rw [writePixel_untouched _ _ _ _ (by omega), ih hn' j]
      by_cases hcond : y * 2048 ≤ j ∧ j < (y * 512 + n) * 4
      · rw [if_pos hcond, if_pos (by omega)]
      · rw [if_neg hcond, if_neg (by omega)]

theorem writeRow_eq (pal : Nat → Nat) (y j : Nat) :
    writeRow pal y j =
      if y * 2048 ≤ j ∧ j < (y * 512 + 512) * 4 then expectedByte j else pal j := by
  simp only [writeRow, TEXTURE_SIZE]
  exact rowFold_eq y pal 512 (by omega) j

theorem colFold_eq (pal : Nat → Nat) (m : Nat) (hm : m ≤ 512) (j : Nat) :
    ((List.range m).foldl (fun p y => writeRow p y) pal) j =
      if j < m * 2048 then expectedByte j else pal j := by
  induction m generalizing j with
  | zero =>
    simp only [List.range_zero, List.foldl_nil]
    rw [if_neg (by omega)]
  | succ m ih =>
    have hm' : m ≤ 512 := Nat.le_of_succ_le hm
    rw [List.range_succ, List.foldl_append, List.foldl_cons, List.foldl_nil]
    rw [writeRow_eq _ m j]
    by_cases htouch : m * 2048 ≤ j ∧ j < (m * 512 + 512) * 4
    · rw [if_pos htouch, if_pos (by omega)]
    · rw [if_neg htouch, ih hm' j]
      by_cases hcond : j < m * 2048
      · rw [if_pos hcond, if_pos (by omega)]
      · rw [if_neg hcond, if_neg (by omega)]

theorem checkerboard_palette_eq (j : Nat) (hj : j < 1048576) :
    checkerboard_palette j = expectedByte j := by
  simp only [checkerboard_palette, TEXTURE_SIZE]
  rw [colFold_eq _ 512 (by omega) j, if_pos (by omega)]

theorem create_checkerboard_image_data (j : Nat) (hj : j < 1048576) :
    create_checkerboard_image.data j = expectedByte j := by
  simp only [create_checkerboard_image]
  exact checkerboard_palette_eq j hj

/-- Claim C5: the checkerboard texture generator is a pure, deterministic function
producing a 512×512 RGBA byte buffer in which, for all `(x, y)` in
`[0,512)²`, pixel `(x, y)` is `(255,255,255,255)` if `x/64 + y/64` is even
and `(150,150,150,255)` otherwise; in particular the alpha byte of every
pixel is 255. -/
theorem create_checkerboard_image_spec (x y : Nat) (hx : x < 512) (hy : y < 512) :
    create_checkerboard_image.width = 512 ∧
    create_checkerboard_image.height = 512 ∧
    ((x / 64 + y / 64) % 2 = 0 →
      (create_checkerboard_image.data ((y * 512 + x) * 4),
       create_checkerboard_image.data ((y * 512 + x) * 4 + 1),
       create_checkerboard_image.data ((y * 512 + x) * 4 + 2),
       create_checkerboard_image.data ((y * 512 + x) * 4 + 3)) = (255, 255, 255, 255)) ∧
    ((x / 64 + y / 64) % 2 ≠ 0 →
      (create_checkerboard_image.data ((y * 512 + x) * 4),
       create_checkerboard_image.data ((y * 512 + x) * 4 + 1),
       create_checkerboard_image.data ((y * 512 + x) * 4 + 2),
       create_checkerboard_image.data ((y * 512 + x) * 4 + 3)) = (150, 150, 150, 255)) ∧
    create_checkerboard_image.data ((y * 512 + x) * 4 + 3) = 255 := by
  have hdata : ∀ k, k < 4 → create_checkerboard_image.data ((y * 512 + x) * 4 + k) =
      if k = 3 then 255 else if (x / 64 + y / 64) % 2 = 0 then 255 else 150 := by
    intro k hk
    rw [create_checkerboard_image_data _ (by omega)]
    exact expectedByte_in_pixel x y k hx hk
  have h0 : create_checkerboard_image.data ((y * 512 + x) * 4) =
      if (x / 64 + y / 64) % 2 = 0 then 255 else 150 := by
    have := hdata 0 (by omega)
    simpa using this
  have h1 := hdata 1 (by omega)
  have h2 := hdata 2 (by omega)
  have h3 := hdata 3 (by omega)
  refine ⟨rfl, rfl, ?_, ?_, ?_⟩
  · intro hw
    simp [h0, h1, h2, h3, hw]
  · intro hw
    simp [h0, h1, h2, h3, hw]
  · simp [h3]

theorem create_checkerboard_image_spec_witness :
    create_checkerboard_image.data ((0 * 512 + 0) * 4 + 3) = 255 :=
  (create_checkerboard_image_spec 0 0 (by decide) (by decide)).2.2.2.2

/-- Claim C6: each frame, every droplet whose current vertical scale exceeds 0.5
gets its scale set to
`(1 + 0.02 sin (5 t), 1 + 0.02 cos (4.3 t), 1 + 0.02 sin (3.5 t))`,
`t` being the elapsed time. -/
theorem animate_droplet_wobbles (t : ℝ) (w : World ℝ) (i : Nat) (d : DropletEntity ℝ)
    (hd : w.droplets[i]? = some d) (hscale : 0.5 < d.transform.scale.y) :
    ∃ d', (animate_droplet t w).droplets[i]? = some d' ∧
      d'.transform.scale =
        ⟨1 + 0.02 * Real.sin (5 * t), 1 + 0.02 * Real.cos (4.3 * t),
         1 + 0.02 * Real.sin (3.5 * t)⟩ := by
  refine ⟨{ d with transform := { d.transform with scale :=
      ⟨1.0 + Real.sin (t * 5.0) * 0.02, 1.0 + Real.cos (t * 4.3) * 0.02,
       1.0 + Real.sin (t * 3.5) * 0.02⟩ } }, ?_, ?_⟩
  · simp [animate_droplet, List.getElem?_map, hd, hscale]
  · have e1 : t * 5.0 = 5 * t := by ring
    have e2 : t * 4.3 = 4.3 * t := by ring
    have e3 : t * 3.5 = 3.5 * t := by ring
    simp only [e1, e2, e3, Vec3.mk.injEq]
    refine ⟨by ring, by ring, by ring⟩

theorem animate_droplet_wobbles_witness :
    ∃ d', (animate_droplet 0 worldR).droplets[0]? = some d' ∧
      d'.transform.scale =
        ⟨1 + 0.02 * Real.sin (5 * 0), 1 + 0.02 * Real.cos (4.3 * 0),
         1 + 0.02 * Real.sin (3.5 * 0)⟩ :=
  animate_droplet_wobbles 0 worldR 0 dropletR rfl (by norm_num [dropletR, Vec3.ONE])

/-- Claim C7: the wobble system is skipped once the droplet is flattened: a droplet
whose vertical scale is at most 0.5 is left entirely unchanged (scale,
translation and rotation), so the flattened splash pose is never overwritten
by wobble. -/
theorem animate_droplet_skips_flattened (t : ℝ) (w : World ℝ) (i : Nat)
    (d : DropletEntity ℝ) (hd : w.droplets[i]? = some d)
    (hflat : d.transform.scale.y ≤ 0.5) :
    (animate_droplet t w).droplets[i]? = some d := by
  have hnot : ¬ (0.5 < d.transform.scale.y) := not_lt.mpr hflat
  simp [animate_droplet, List.getElem?_map, hd, hnot]

theorem animate_droplet_skips_flattened_witness :
    (animate_droplet 0 flatWorldR).droplets[0]? = some flatDropletR :=
  animate_droplet_skips_flattened 0 flatWorldR 0 flatDropletR rfl
    (by norm_num [flatDropletR, dropletR])

/-- Claim C8: whenever the wobble system rewrites a droplet's scale (vertical scale
above 0.5 before the run), each of the three written scale components lies in
the interval `[0.98, 1.02]`, for every elapsed time `t`. -/
theorem animate_droplet_scale_bounded (t : ℝ) (w : World ℝ) (i : Nat)
    (d : DropletEntity ℝ) (hd : w.droplets[i]? = some d)
    (hscale : 0.5 < d.transform.scale.y) :
    ∃ d', (animate_droplet t w).droplets[i]? = some d' ∧
      0.98 ≤ d'.transform.scale.x ∧ d'.transform.scale.x ≤ 1.02 ∧
      0.98 ≤ d'.transform.scale.y ∧ d'.transform.scale.y ≤ 1.02 ∧
      0.98 ≤ d'.transform.scale.z ∧ d'.transform.scale.z ≤ 1.02 := by
  refine ⟨{ d with transform := { d.transform with scale :=
      ⟨1.0 + Real.sin (t * 5.0) * 0.02, 1.0 + Real.cos (t * 4.3) * 0.02,
       1.0 + Real.sin (t * 3.5) * 0.02⟩ } }, ?_, ?_, ?_, ?_, ?_, ?_, ?_⟩
  · simp [animate_droplet, List.getElem?_map, hd, hscale]
  · have h1 := Real.neg_one_le_sin (t * 5.0)
    show (0.98 : ℝ) ≤ 1.0 + Real.sin (t * 5.0) * 0.02
    nlinarith
  · have h1 := Real.sin_le_one (t * 5.0)
    show (1.0 : ℝ) + Real.sin (t * 5.0) * 0.02 ≤ 1.02
    nlinarith
  · have h1 := Real.neg_one_le_cos (t * 4.3)
    show (0.98 : ℝ) ≤ 1.0 + Real.cos (t * 4.3) * 0.02
    nlinarith
  · have h1 := Real.cos_le_one (t * 4.3)
    show (1.0 : ℝ) + Real.cos (t * 4.3) * 0.02 ≤ 1.02
    nlinarith
  · have h1 := Real.neg_one_le_sin (t * 3.5)
    show (0.98 : ℝ) ≤ 1.0 + Real.sin (t * 3.5) * 0.02
    nlinarith
  · have h1 := Real.sin_le_one (t * 3.5)
    show (1.0 : ℝ) + Real.sin (t * 3.5) * 0.02 ≤ 1.02
    nlinarith

theorem animate_droplet_scale_bounded_witness :
    ∃ d' : DropletEntity ℝ, (animate_droplet 1 worldR).droplets[0]? = some d' ∧
      0.98 ≤ d'.transform.scale.x ∧ d'.transform.scale.x ≤ 1.02 ∧
      0.98 ≤ d'.transform.scale.y ∧ d'.transform.scale.y ≤ 1.02 ∧
      0.98 ≤ d'.transform.scale.z ∧ d'.transform.scale.z ≤ 1.02 :=
  animate_droplet_scale_bounded 1 worldR 0 dropletR rfl (by norm_num [dropletR, Vec3.ONE])

/-- Claim C10: the scene bootstrap attaches the `RotateLight` component to none of
the entities it spawns, so the light-orbit system's query is empty on the
scene `setup` produces and `animate_light` changes no entity's transform on
any frame: the circular orbit `(4 cos t, 8, 4 sin t)` is never applied. -/
theorem setup_rotate_light_inert :
    (∀ e ∈ setup_entities, e.rotateLight = false) ∧
    ∀ t : ℝ, animate_light t setup_entities = setup_entities := by
  constructor
  · intro e he
    simp only [setup_entities, List.mem_cons, List.not_mem_nil, or_false] at he
    rcases he with rfl | rfl | rfl | rfl | rfl | rfl <;> rfl
  · intro t
    simp [animate_light, setup_entities]

theorem spawnParticles_length {α : Type} [LinearOrderedField α] (rand : Nat → α)
    (k : Nat) (pos : Vec3 α) : (spawnParticles rand k pos).length = 20 := by
  simp [spawnParticles]

theorem applyMarkers_nil {α : Type} (ds : List (DropletEntity α)) :
    applyMarkers ds [] = ds := by
  simp [applyMarkers]

theorem get_single?_eq_none {β : Type} (l : List β) (h : l.length ≠ 1) :
    get_single? l = none := by
  match l with
  | [] => rfl
  | [b] => simp at h
  | a :: b :: l => rfl

theorem splashStep_noop {α : Type} [LinearOrderedField α] (rand : Nat → α)
    (acc : SplashAcc α) (event : CollisionEvent)
    (h : get_single? (acc.droplets.filter fun d => !d.hasSplashed) = none) :
    splashStep rand acc event = acc := by
  cases event with
  | Started e1 e2 flags => simp [splashStep, h]
  | Stopped e1 e2 flags => rfl

theorem foldl_splashStep_noop {α : Type} [LinearOrderedField α] (rand : Nat → α)
    (events : List CollisionEvent) (acc : SplashAcc α)
    (h : get_single? (acc.droplets.filter fun d => !d.hasSplashed) = none) :
    events.foldl (splashStep rand) acc = acc := by
  induction events with
  | nil => rfl
  | cons e es ih => rw [List.foldl_cons, splashStep_noop rand acc e h, ih]

theorem splash_on_impact_noop {α : Type} [LinearOrderedField α]
    (events : List CollisionEvent) (rand : Nat → α) (w : World α)
    (h : get_single? (w.droplets.filter fun d => !d.hasSplashed) = none) :
    splash_on_impact events rand w = w := by
  obtain ⟨ds, ps⟩ := w
  simp only [splash_on_impact]
  rw [foldl_splashStep_noop rand events _ h]
  simp [applyMarkers_nil]

theorem gen_range_bounds {α : Type} [LinearOrderedField α] (lo hi u : α)
    (hlohi : lo ≤ hi) (h0 : 0 ≤ u) (h1 : u < 1) :
    lo ≤ gen_range lo hi u ∧ gen_range lo hi u ≤ hi := by
  constructor
  · have : 0 ≤ u * (hi - lo) := mul_nonneg h0 (by linarith)
    simp only [gen_range]
    linarith
  · have : u * (hi - lo) ≤ 1 * (hi - lo) :=
      mul_le_mul_of_nonneg_right (le_of_lt h1) (by linarith)
    simp only [gen_range]
    linarith

theorem spawnParticles_mem {α : Type} [LinearOrderedField α] (rand : Nat → α)
    (k : Nat) (pos : Vec3 α) (hrand : ∀ n, 0 ≤ rand n ∧ rand n < 1) :
    ∀ p ∈ spawnParticles rand k pos,
      p.translation = pos ∧ p.rigidBodyDynamic = true ∧
      p.colliderBallRadius = 0.1 ∧ p.angvel = Vec3.ZERO ∧
      -2 ≤ p.linvel.x ∧ p.linvel.x ≤ 2 ∧
      -2 ≤ p.linvel.z ∧ p.linvel.z ≤ 2 ∧
      2 ≤ p.linvel.y ∧ p.linvel.y ≤ 5 := by
  intro p hp
  simp only [spawnParticles, List.mem_map, List.mem_range] at hp
  obtain ⟨j, hj, rfl⟩ := hp
  have hx := gen_range_bounds (-2.0 : α) 2.0 (rand (k + 3 * j)) (by norm_num)
    (hrand _).1 (hrand _).2
  have hz := gen_range_bounds (-2.0 : α) 2.0 (rand (k + 3 * j + 1)) (by norm_num)
    (hrand _).1 (hrand _).2
  have hy := gen_range_bounds (2.0 : α) 5.0 (rand (k + 3 * j + 2)) (by norm_num)
    (hrand _).1 (hrand _).2
  refine ⟨rfl, rfl, rfl, rfl, ?_, ?_, ?_, ?_, ?_, ?_⟩
  · have := hx.1; norm_num at this ⊢; linarith
  · have := hx.2; norm_num at this ⊢; linarith
  · have := hz.1; norm_num at this ⊢; linarith
  · have := hz.2; norm_num at this ⊢; linarith
  · have := hy.1; norm_num at this ⊢; linarith
  · have := hy.2; norm_num at this ⊢; linarith

/-- Claim C1: on a collision-start event involving the (sole, unsplashed) droplet
while its vertical position is below 1.0, the splash handler flattens the
droplet's scale to `(2, 0.1, 2)`, attaches the `HasSplashed` marker, and
spawns exactly 20 particles at the droplet's current position, each a dynamic
body with a spherical collider and a velocity whose x and z components lie in
`[-2, 2]` and whose y component lies in `[2, 5]`; a collision-start event not
meeting all three conditions spawns no particles and changes no scale. -/
theorem splash_on_impact_single_event {α : Type} [LinearOrderedField α]
    (w : World α) (d : DropletEntity α) (e1 e2 flags : Nat) (rand : Nat → α)
    (hw : w.droplets = [d]) (hrand : ∀ n, 0 ≤ rand n ∧ rand n < 1) :
    ((d.hasSplashed = false ∧ (e1 = d.id ∨ e2 = d.id) ∧ d.transform.translation.y < 1.0) →
      (splash_on_impact [CollisionEvent.Started e1 e2 flags] rand w).droplets =
        [{ d with
            transform := { d.transform with scale := ⟨2.0, 0.1, 2.0⟩ }
            hasSplashed := true }] ∧
      ∃ ps : List (Particle α),
        (splash_on_impact [CollisionEvent.Started e1 e2 flags] rand w).particles =
          w.particles ++ ps ∧ ps.length = 20 ∧
        ∀ p ∈ ps, p.translation = d.transform.translation ∧
          p.rigidBodyDynamic = true ∧ p.colliderBallRadius = 0.1 ∧
          -2 ≤ p.linvel.x ∧ p.linvel.x ≤ 2 ∧ -2 ≤ p.linvel.z ∧ p.linvel.z ≤ 2 ∧
          2 ≤ p.linvel.y ∧ p.linvel.y ≤ 5) ∧
    (¬ (d.hasSplashed = false ∧ (e1 = d.id ∨ e2 = d.id) ∧ d.transform.translation.y < 1.0) →
      splash_on_impact [CollisionEvent.Started e1 e2 flags] rand w = w) := by
  obtain ⟨ds, ps0⟩ := w
  simp only [World.mk.injEq] at hw ⊢
  subst hw
  constructor
  · rintro ⟨hns, hinv, hy⟩
    have hfilter : (([d] : List (DropletEntity α)).filter fun x => !x.hasSplashed) = [d] := by
      simp [hns]
    have hstep : splashStep rand ⟨[d], [], [], 0⟩ (CollisionEvent.Started e1 e2 flags) =
        ⟨setScale [d] d.id ⟨2.0, 0.1, 2.0⟩, [d.id],
          spawnParticles rand 0 d.transform.translation, 60⟩ := by
      simp only [splashStep, hfilter, get_single?]
      rw [if_pos hinv, if_pos hy]
      simp
    constructor
    · show (splash_on_impact [CollisionEvent.Started e1 e2 flags] rand ⟨[d], ps0⟩).droplets = _
      simp only [splash_on_impact, List.foldl_cons, List.foldl_nil, hstep]
      simp [setScale, applyMarkers]
    · refine ⟨spawnParticles rand 0 d.transform.translation, ?_,
        spawnParticles_length rand 0 d.transform.translation, ?_⟩
      · show (splash_on_impact [CollisionEvent.Started e1 e2 flags] rand ⟨[d], ps0⟩).particles = _
        simp only [splash_on_impact, List.foldl_cons, List.foldl_nil, hstep]
      · intro p hp
        have h := spawnParticles_mem rand 0 d.transform.translation hrand p hp
        exact ⟨h.1, h.2.1, h.2.2.1, h.2.2.2.2.1, h.2.2.2.2.2.1, h.2.2.2.2.2.2.1,
          h.2.2.2.2.2.2.2.1, h.2.2.2.2.2.2.2.2.1, h.2.2.2.2.2.2.2.2.2⟩
  · intro hneg
    by_cases hns : d.hasSplashed = false
    · have hcond : ¬ ((e1 = d.id ∨ e2 = d.id) ∧ d.transform.translation.y < 1.0) := by
        intro hc
        exact hneg ⟨hns, hc.1, hc.2⟩
      have hfilter : (([d] : List (DropletEntity α)).filter fun x => !x.hasSplashed) = [d] := by
        simp [hns]
      have hstep : splashStep rand ⟨[d], [], [], 0⟩ (CollisionEvent.Started e1 e2 flags) =
          ⟨[d], [], [], 0⟩ := by
        simp only [splashStep, hfilter, get_single?]
        by_cases hinv : e1 = d.id ∨ e2 = d.id
        · rw [if_pos hinv, if_neg (fun hy => hcond ⟨hinv, hy⟩)]
        · rw [if_neg hinv]
      show splash_on_impact [CollisionEvent.Started e1 e2 flags] rand ⟨[d], ps0⟩ = ⟨[d], ps0⟩
      simp only [splash_on_impact, List.foldl_cons, List.foldl_nil, hstep]
      simp [applyMarkers_nil]
    · have hsplashed : d.hasSplashed = true := by
        revert hns
        cases d.hasSplashed <;> simp
      apply splash_on_impact_noop
      show get_single? (([d] : List (DropletEntity α)).filter fun x => !x.hasSplashed) = none
      simp [hsplashed, get_single?]

theorem splash_on_impact_single_event_witness :
    (splash_on_impact [CollisionEvent.Started 0 1 0] randZero cexWorld).droplets =
      [{ cexDroplet with
          transform := { cexDroplet.transform with scale := ⟨2.0, 0.1, 2.0⟩ }
          hasSplashed := true }] :=
  ((splash_on_impact_single_event cexWorld cexDroplet 0 1 0 randZero rfl
      (fun n => ⟨le_refl 0, zero_lt_one⟩)).1
    ⟨rfl, Or.inl rfl, by norm_num [cexDroplet]⟩).1

/-- Claim C2 counterexample: the marker insertion goes through `Commands` and is
deferred, so a second collision-start event in the same frame as the
triggering one still passes the `Without<HasSplashed>` filter and spawns 20
additional particles: two identical events in one batch yield 40 particles,
not 20. -/
theorem splash_same_frame_counterexample :
    (splash_on_impact [CollisionEvent.Started 0 1 0] randZero cexWorld).particles.length
      = 20 ∧
    (splash_on_impact [CollisionEvent.Started 0 1 0, CollisionEvent.Started 0 1 0]
        randZero cexWorld).particles.length = 40 := by
  constructor <;>
    norm_num [splash_on_impact, splashStep, get_single?, setScale, applyMarkers,
      spawnParticles_length, cexWorld, cexDroplet, randZero]

/-- Claim C2 (amended): once the `HasSplashed` marker is actually attached (the
command buffer is applied at the end of the system run), every further
collision-start event processed in a later run of the splash system spawns no
particles and changes nothing at all. Same-batch events are not blocked. -/
theorem splash_noop_after_marker {α : Type} [LinearOrderedField α]
    (events : List CollisionEvent) (rand : Nat → α) (w : World α)
    (h : ∀ d ∈ w.droplets, d.hasSplashed = true) :
    splash_on_impact events rand w = w := by
  apply splash_on_impact_noop
  have hfil : (w.droplets.filter fun d => !d.hasSplashed) = [] := by
    apply List.filter_eq_nil_iff.mpr
    intro d hd
    simp [h d hd]
  rw [hfil]
  rfl

theorem splash_noop_after_marker_witness :
    splash_on_impact [CollisionEvent.Started 0 1 0] randZero splashedWorld
      = splashedWorld :=
  splash_noop_after_marker _ _ _ (by
    intro d hd
    simp only [splashedWorld, List.mem_singleton] at hd
    subst hd
    rfl)

theorem reset_droplet_resets_all {α : Type} [LinearOrderedField α] (w : World α) :
    ∀ d ∈ (reset_droplet true w).droplets,
      d.transform.translation = ⟨0, 5, 0⟩ ∧ d.transform.scale = ⟨1, 1, 1⟩ ∧
      d.linvel = ⟨0, 0, 0⟩ ∧ d.angvel = ⟨0, 0, 0⟩ ∧ d.hasSplashed = false := by
  intro d hd
  simp only [reset_droplet, if_true] at hd
  rw [List.mem_map] at hd
  obtain ⟨d0, _, rfl⟩ := hd
  refine ⟨?_, ?_, ?_, ?_, rfl⟩
  · show (⟨0.0, 5.0, 0.0⟩ : Vec3 α) = ⟨0, 5, 0⟩
    norm_num [Vec3.mk.injEq]
  · rfl
  · rfl
  · rfl

/-- Claim C3: a press of the reset key restores every droplet (position `(0,5,0)`,
scale `(1,1,1)`, zero linear and angular velocity, marker removed) and
destroys every particle entity, leaving exactly zero particles; the effect is
edge-triggered: on a frame where the key is not newly pressed the system does
nothing. -/
theorem reset_droplet_spec {α : Type} [LinearOrderedField α] (w : World α) :
    (reset_droplet true w).particles = [] ∧
    (reset_droplet true w).droplets.length = w.droplets.length ∧
    (∀ d ∈ (reset_droplet true w).droplets,
      d.transform.translation = ⟨0, 5, 0⟩ ∧ d.transform.scale = ⟨1, 1, 1⟩ ∧
      d.linvel = ⟨0, 0, 0⟩ ∧ d.angvel = ⟨0, 0, 0⟩ ∧ d.hasSplashed = false) ∧
    reset_droplet false w = w :=
  ⟨rfl, by simp [reset_droplet], reset_droplet_resets_all w, rfl⟩

/-- Claim C4 counterexample: with two droplets present, a qualifying collision-start
event splashes nothing at all (`get_single_mut` fails on a non-singleton
query, so not even the first droplet is processed), while a reset press
processes both droplets, not just the first. -/
theorem first_droplet_counterexample :
    (splash_on_impact [CollisionEvent.Started 0 99 0] randZero twoDropletWorld).particles.length
      = 0 ∧
    (splash_on_impact [CollisionEvent.Started 0 99 0] randZero twoDropletWorld).droplets
      = twoDropletWorld.droplets ∧
    ((reset_droplet true twoDropletWorld).droplets.map fun d => d.transform.translation)
      = [⟨0, 5, 0⟩, ⟨0, 5, 0⟩] := by
  have hnone : get_single? (twoDropletWorld.droplets.filter fun d => !d.hasSplashed)
      = none := by
    apply get_single?_eq_none
    simp [twoDropletWorld, cexDroplet, cexDroplet2]
  rw [splash_on_impact_noop _ _ _ hnone]
  refine ⟨rfl, rfl, ?_⟩
  norm_num [reset_droplet, twoDropletWorld, cexDroplet, cexDroplet2, Vec3.mk.injEq]

/-- Claim C4 (amended): when more than one unsplashed droplet exists, the splash
system's single-droplet lookup fails and no droplet at all receives the
splash effect (no particles, no scale change), while the reset system
processes every droplet, not only the first. -/
theorem multi_droplet_behavior {α : Type} [LinearOrderedField α]
    (w : World α) (events : List CollisionEvent) (rand : Nat → α)
    (h2 : 2 ≤ (w.droplets.filter fun d => !d.hasSplashed).length) :
    splash_on_impact events rand w = w ∧
    ∀ d ∈ (reset_droplet true w).droplets,
      d.transform.translation = ⟨0, 5, 0⟩ ∧ d.transform.scale = ⟨1, 1, 1⟩ ∧
      d.linvel = ⟨0, 0, 0⟩ ∧ d.angvel = ⟨0, 0, 0⟩ ∧ d.hasSplashed = false :=
  ⟨splash_on_impact_noop _ _ _ (get_single?_eq_none _ (by omega)),
   reset_droplet_resets_all w⟩

theorem multi_droplet_behavior_witness :
    splash_on_impact [CollisionEvent.Started 0 99 0] randZero twoDropletWorld
      = twoDropletWorld :=
  (multi_droplet_behavior twoDropletWorld [CollisionEvent.Started 0 99 0] randZero
    (by simp [twoDropletWorld, cexDroplet, cexDroplet2])).1

/-- Claim C9 counterexample: with no droplet present but the reset key pressed, the
reset system is not a state-preserving no-op: it still destroys every
particle entity. -/
theorem reset_without_droplet_counterexample :
    (reset_droplet true noDropletWorld).particles.length = 0 ∧
    noDropletWorld.particles.length = 1 ∧
    reset_droplet true noDropletWorld ≠ noDropletWorld := by
  refine ⟨rfl, rfl, ?_⟩
  intro h
  have h' := congrArg (fun w => w.particles.length) h
  simp only [reset_droplet, if_true, noDropletWorld] at h'
  exact absurd h' (by decide)

/-- Claim C9 (amended): when no droplet entity is present, the wobble and splash
systems are silent no-ops leaving the world unchanged, and the reset system
reports no fault and touches no droplet state — but on a key press it still
destroys every particle entity. -/
theorem no_droplet_behavior (t : ℝ) (events : List CollisionEvent)
    (rand : Nat → ℝ) (w : World ℝ) (h : w.droplets = []) :
    animate_droplet t w = w ∧
    splash_on_impact events rand w = w ∧
    (reset_droplet true w).droplets = [] ∧
    (reset_droplet true w).particles = [] ∧
    reset_droplet false w = w := by
  obtain ⟨ds, ps⟩ := w
  have hds : ds = [] := h
  subst hds
  exact ⟨rfl, splash_on_impact_noop _ _ _ rfl, rfl, rfl, rfl⟩

theorem no_droplet_behavior_witness :
    animate_droplet 0 emptyWorldR = emptyWorldR ∧
    splash_on_impact [] (fun _ => 0) emptyWorldR = emptyWorldR ∧
    (reset_droplet true emptyWorldR).droplets = [] ∧
    (reset_droplet true emptyWorldR).particles = [] ∧
    reset_droplet false emptyWorldR = emptyWorldR :=
  no_droplet_behavior 0 [] (fun _ => 0) emptyWorldR rfl
